import Mathlib

/-!
Verification of the metrics-refresh core of `gmail-exporter.py`
(prometheus-gmail-exporter).

The Python source is shallowly embedded: dictionaries become association
lists over `String` keys, mutation of module-level state becomes explicit
state passing over `ExpState`, Python exceptions become `Except PyErr`,
`sys.exit` becomes the `Fatal.sysExit` signal, and the remote Gmail API
(`GMAIL_CLIENT`) becomes a record of response functions `GmailClient`.
Remote-call activity that the spec talks about (message-fetch calls,
label-discovery calls) is made observable by returning call traces and
call counts alongside the state.
-/

/-- A Python exception, as far as this program distinguishes them. -/
inductive PyErr where
  /-- `IndexError`, e.g. indexing `[0]` into an empty list. -/
  | indexError : PyErr
  /-- `KeyError` on a missing dictionary key. -/
  | keyError : String → PyErr
  /-- Any error raised by a remote API call (HTTP fault, garbage response). -/
  | apiError : String → PyErr
deriving DecidableEq, Repr

/-- `sys.exit()` or an uncaught exception escaping to the top level. -/
inductive Fatal where
  /-- `sys.exit()`. -/
  | sysExit : Fatal
  /-- An uncaught Python exception. -/
  | exc : PyErr → Fatal
deriving DecidableEq, Repr

/-- Lookup in a Python-dict-as-association-list (first binding wins;
`dictSet` keeps keys unique, matching dict semantics). -/
def dictGet {β : Type} (k : String) : List (String × β) → Option β
  | [] => none
  | (k', v) :: rest => if k' = k then some v else dictGet k rest

/-- `d[k] = v` on a Python dict: replace the existing binding or append a
new one, preserving insertion order (Python 3.7+ dict iteration order). -/
def dictSet {β : Type} (k : String) (v : β) : List (String × β) → List (String × β)
  | [] => [(k, v)]
  | (k', v') :: rest => if k' = k then (k, v) :: rest else (k', v') :: dictSet k v rest

/-- One `name: value` entry of `message['payload']['headers']`. -/
structure Header where
  name : String
  value : String
deriving DecidableEq, Repr

/-- `message['payload']`: only the header list is consulted. -/
structure MessagePayload where
  headers : List Header
deriving DecidableEq, Repr

/-- A Gmail message, as consulted by this program. -/
structure GMessage where
  payload : MessagePayload
deriving DecidableEq, Repr

/-- A Gmail thread object. `messages` is `none` when the Python value is
`None` (the code checks `thread['messages'] is None`); `some l` when it is
the list `l`. -/
structure GThread where
  id : String
  messages : Option (List GMessage)
deriving DecidableEq, Repr

/-- A `users().threads().list(...)` response. `threads = none` models the
`'threads'` key being absent (the code checks `"threads" in response` for
the first page but indexes directly on later pages). -/
structure ListThreadsResponse where
  resultSizeEstimate : Nat
  threads : Option (List GThread)
  nextPageToken : Option String
deriving DecidableEq, Repr

/-- A `users().labels().get(...)` response with the four fields the code
reads: `id`, `name`, `threadsTotal`, `threadsUnread`. A malformed response
(missing key) is modelled as the call erroring. -/
structure LabelInfo where
  id : String
  name : String
  threadsTotal : Nat
  threadsUnread : Nat
deriving DecidableEq, Repr

/-- A label descriptor as held in the resolved label list: the code only
ever reads `label['id']` from it. -/
structure LabelDesc where
  id : String
deriving DecidableEq, Repr

/-- The remote Gmail API (`GMAIL_CLIENT`), as a record of response
functions. `Except.error` covers HTTP faults, 404s on deleted labels, and
malformed (key-missing) responses alike. -/
structure GmailClient where
  /-- `users().labels().list(userId='me').execute()`, then
  `results.get('labels', [])`: `ok none` means the `'labels'` key was
  absent. -/
  listLabels : Except PyErr (Option (List LabelDesc))
  /-- `users().labels().get(id=..., userId='me').execute()`. -/
  getLabel : String → Except PyErr LabelInfo
  /-- `users().threads().list(userId='me', labelIds=[l], q="is:unread")`
  with an optional `pageToken`. -/
  listThreads : String → Option String → Except PyErr ListThreadsResponse
  /-- `users().threads().get(userId='me', id=..., format="metadata")`,
  then `res['messages']`: `ok v` means the key was present with value `v`
  (`none` = JSON null). -/
  getThread : String → Except PyErr (Option (List GMessage))

/-- A registered Prometheus gauge. `promName` is the exported metric name
(`'gmail_' + name`); `value` is the unlabeled value written by `.set`;
`children` are the per-label-value children written by
`.labels(sender=...).set`. -/
structure Gauge where
  promName : String
  desc : String
  labelNames : List String
  value : Int
  children : List (String × Int)
deriving DecidableEq, Repr

/-- The module-level mutable state of the exporter: `gauge_collection`
(keyed by the un-prefixed metric name) and `THREAD_SENDER_CACHE`. -/
structure ExpState where
  gauge_collection : List (String × Gauge)
  thread_sender_cache : List (String × String)
deriving DecidableEq, Repr

/-- `get_gauge_for_label(name, desc, labels)`: create-and-store on a
missing key, return the stored handle otherwise (arguments other than
`name` ignored on a hit). Returns the new state and the handle. -/
def get_gauge_for_label (name desc : String) (labels : List String) (st : ExpState) :
    ExpState × Gauge :=
  match dictGet name st.gauge_collection with
  | some g => (st, g)
  | none =>
    let g : Gauge :=
      { promName := "gmail_" ++ name, desc := desc, labelNames := labels,
        value := 0, children := [] }
    ({ st with gauge_collection := dictSet name g st.gauge_collection }, g)

/-- `gauge.set(v)` on the handle registered under `name`: since the handle
is the registry's entry, mutation is an update of that entry. -/
def setGaugeValue (name : String) (v : Int) (st : ExpState) : ExpState :=
  match dictGet name st.gauge_collection with
  | some g =>
    { st with gauge_collection := dictSet name { g with value := v } st.gauge_collection }
  | none => st

/-- `gauge.labels(sender=s).set(v)` on the handle registered under
`name`. -/
def setGaugeChild (name sender : String) (v : Int) (st : ExpState) : ExpState :=
  match dictGet name st.gauge_collection with
  | some g =>
    { st with gauge_collection :=
        dictSet name { g with children := dictSet sender v g.children } st.gauge_collection }
  | none => st

/-- An HTTP response of the Flask app: status code and body. -/
structure HttpResponse where
  status : Nat
  body : String
deriving DecidableEq, Repr

/-- The initial value of the module-level `READINESS` string (line 30 of
the source): the empty string. -/
def READINESS_initial : String := ""

/-- The `/readyz` handler: `return "OK"` (Flask: status 200, body `"OK"`)
when `READINESS` is empty, else `Response(READINESS, status=503)`. -/
def readyz (READINESS : String) : HttpResponse :=
  if READINESS = "" then { status := 200, body := "OK" }
  else { status := 503, body := READINESS }

/-- The scan `for header in firstMessage['payload']['headers']` with the
early return on `header['name'] == 'From'`: first matching header's value. -/
def findFromHeader : List Header → Option String
  | [] => none
  | h :: rest => if h.name = "From" then some h.value else findFromHeader rest

/-- `get_first_message_sender(thread)`. `none` at the outer `Option` is a
`None` thread; `thread.messages = none` is `thread['messages'] is None`.
Indexing `thread['messages'][0]` into an empty list raises `IndexError`. -/
def get_first_message_sender : Option GThread → Except PyErr String
  | none => .ok "unknown-thread-no-messages"
  | some thread =>
    match thread.messages with
    | none => .ok "unknown-thread-no-messages"
    | some [] => .error .indexError
    | some (firstMessage :: _) =>
      match findFromHeader firstMessage.payload.headers with
      | some v => .ok v
      | none => .ok "unknown-no-from"

/-- The `while "nextPageToken" in response` loop of
`get_all_threads_for_label`: fetch the next page and
`threads.extend(response['threads'])` (a later page with no `'threads'`
key raises `KeyError`). `fuel` bounds the unbounded Python loop; every
theorem supplies enough fuel for its page chain. -/
def threadsPageLoop (client : GmailClient) (labelId : String) :
    Nat → ListThreadsResponse → List GThread → Except PyErr (List GThread)
  | fuel, response, threads =>
    match response.nextPageToken with
    | none => .ok threads
    | some page_token =>
      match fuel with
      | 0 => .error (.apiError "page chain exceeded fuel")
      | fuel' + 1 =>
        match client.listThreads labelId (some page_token) with
        | .error e => .error e
        | .ok response' =>
          match response'.threads with
          | none => .error (.keyError "threads")
          | some ts => threadsPageLoop client labelId fuel' response' (threads ++ ts)

/-- `get_all_threads_for_label(labelId)`: first unpaged listing, then the
token-chased page loop. The first page's thread list is only appended
`if "threads" in response`. -/
def get_all_threads_for_label (client : GmailClient) (labelId : String) (fuel : Nat) :
    Except PyErr (List GThread) :=
  match client.listThreads labelId none with
  | .error e => .error e
  | .ok response =>
    let threads : List GThread :=
      match response.threads with
      | some ts => ts
      | none => []
    threadsPageLoop client labelId fuel response threads

/-- The `for thread in ...` loop of `update_sender_gauges_for_label`.
On a cache miss it issues `get_thread_messages` (recorded in the returned
trace of fetched thread ids), resolves the sender and writes it into
`THREAD_SENDER_CACHE`; then it tallies the sender in `senderCounts`.
An exception leaves the state and trace as of the point it was raised. -/
def senderLoop (client : GmailClient) :
    List GThread → ExpState → List (String × Nat) → List String →
    ExpState × List String × Except PyErr (List (String × Nat))
  | [], st, senderCounts, trace => (st, trace, .ok senderCounts)
  | thread :: rest, st, senderCounts, trace =>
    match dictGet thread.id st.thread_sender_cache with
    | some sender =>
      let senderCounts' := dictSet sender ((dictGet sender senderCounts).getD 0 + 1) senderCounts
      senderLoop client rest st senderCounts' trace
    | none =>
      match client.getThread thread.id with
      | .error e => (st, trace ++ [thread.id], .error e)
      | .ok msgs =>
        match get_first_message_sender (some { thread with messages := msgs }) with
        | .error e => (st, trace ++ [thread.id], .error e)
        | .ok sender =>
          let st' :=
            { st with thread_sender_cache := dictSet thread.id sender st.thread_sender_cache }
          let senderCounts' := dictSet sender ((dictGet sender senderCounts).getD 0 + 1) senderCounts
          senderLoop client rest st' senderCounts' (trace ++ [thread.id])

/-- The `for sender, messageCount in senderCounts.items()` publish loop:
re-fetch (or create) the `<label>_sender` gauge and set the `sender`
child to the tally. -/
def publishSenderCounts (label : String) (senderCounts : List (String × Nat)) (st : ExpState) :
    ExpState :=
  senderCounts.foldl
    (fun s p =>
      let s1 := (get_gauge_for_label (label ++ "_sender") "Label sender info" ["sender"] s).1
      setGaugeChild (label ++ "_sender") p.1 (p.2 : Int) s1)
    st

/-- `update_sender_gauges_for_label(label)`: enumerate unread threads,
run the sender loop, publish the tallies. Returns the state, the trace of
thread ids for which a message-fetch call was issued, and the exception
that escaped, if any (caught by the caller's per-label handler). -/
def update_sender_gauges_for_label (client : GmailClient) (label : String) (fuel : Nat)
    (st : ExpState) : ExpState × List String × Option PyErr :=
  match get_all_threads_for_label client label fuel with
  | .error e => (st, [], some e)
  | .ok threads =>
    match senderLoop client threads st [] [] with
    | (st', trace, .error e) => (st', trace, some e)
    | (st', trace, .ok senderCounts) => (publishSenderCounts label senderCounts st', trace, none)

/-- The body of the `for label in get_labels()` loop of
`update_gauages_from_gmail`, including its `try/except`: any exception is
logged and swallowed, keeping the state as of the exception point. The
second component accumulates the message-fetch trace of the cycle. -/
def processLabel (client : GmailClient) (labelsSenderCount : List String) (fuel : Nat)
    (acc : ExpState × List String) (label : LabelDesc) : ExpState × List String :=
  match client.getLabel label.id with
  | .error _ => acc
  | .ok label_info =>
    let s1 := (get_gauge_for_label (label_info.id ++ "_total")
      (label_info.name ++ " Total") [] acc.1).1
    let s2 := setGaugeValue (label_info.id ++ "_total") (label_info.threadsTotal : Int) s1
    let s3 := (get_gauge_for_label (label_info.id ++ "_unread")
      (label_info.name ++ " Unread") [] s2).1
    let s4 := setGaugeValue (label_info.id ++ "_unread") (label_info.threadsUnread : Int) s3
    if label.id ∈ labelsSenderCount then
      let r := update_sender_gauges_for_label client label_info.id fuel s4
      (r.1, acc.2 ++ r.2.1)
    else
      (s4, acc.2)

/-- The `for label in get_labels()` loop over an already-resolved label
list. -/
def updateLabels (client : GmailClient) (labelsSenderCount : List String) (fuel : Nat)
    (labels : List LabelDesc) (acc : ExpState × List String) : ExpState × List String :=
  labels.foldl (processLabel client labelsSenderCount fuel) acc

/-- `get_labels()` without its `lru_cache`: explicit `args.labels` are
wrapped as `{'id': label}` descriptors with no remote call; otherwise one
discovery call lists all labels (`results.get('labels', [])`); an empty
result hits `sys.exit()`. -/
def get_labels_uncached (labels_arg : List String) (client : GmailClient) :
    Except Fatal (List LabelDesc) :=
  let labels : Except Fatal (List LabelDesc) :=
    if labels_arg.length = 0 then
      match client.listLabels with
      | .error e => .error (.exc e)
      | .ok results => .ok (results.getD [])
    else
      .ok (labels_arg.map (fun label => { id := label }))
  match labels with
  | .error f => .error f
  | .ok ls => if ls.isEmpty then .error .sysExit else .ok ls

/-- `get_labels()` with `@lru_cache(maxsize=1)`: a cached value is
returned with no work; otherwise the body runs and a successful result is
cached (an exception is not cached, matching `lru_cache`). The middle
component counts remote discovery calls issued by this call. -/
def get_labels (labels_arg : List String) (client : GmailClient)
    (cache : Option (List LabelDesc)) :
    Option (List LabelDesc) × Nat × Except Fatal (List LabelDesc) :=
  match cache with
  | some ls => (some ls, 0, .ok ls)
  | none =>
    let discoveryCalls := if labels_arg.length = 0 then 1 else 0
    match get_labels_uncached labels_arg client with
    | .error f => (none, discoveryCalls, .error f)
    | .ok ls => (some ls, discoveryCalls, .ok ls)

/-- `update_gauages_from_gmail()` (source spelling kept): resolve the
label list via the memoized `get_labels` — whose `sys.exit` or exception
propagates, uncaught, out of the cycle — then run the per-label loop.
Returns the updated `lru_cache` state, the exporter state, the cycle's
message-fetch trace, and the fatal signal if label resolution failed. -/
def update_gauages_from_gmail (client : GmailClient) (labels_arg : List String)
    (labelsSenderCount : List String) (fuel : Nat) (cache : Option (List LabelDesc))
    (st : ExpState) :
    Option (List LabelDesc) × ExpState × List String × Option Fatal :=
  match get_labels labels_arg client cache with
  | (cache', _, .error f) => (cache', st, [], some f)
  | (cache', _, .ok labels) =>
    let r := updateLabels client labelsSenderCount fuel labels (st, [])
    (cache', r.1, r.2, none)

/-- A token-chained sequence of listing responses: each response's
next-page token is mapped by `fetch` to the next response, and the last
response carries no token. -/
def RespChain (fetch : String → Except PyErr ListThreadsResponse) :
    ListThreadsResponse → List ListThreadsResponse → Prop
  | r, [] => r.nextPageToken = none
  | r, r' :: rest =>
    ∃ t, r.nextPageToken = some t ∧ fetch t = Except.ok r' ∧ RespChain fetch r' rest

/-! Concrete fixtures used to evaluate the definitions on closed inputs. -/

/-- First page of the demo three-page unread-thread listing. -/
def pageOne : ListThreadsResponse :=
  { resultSizeEstimate := 3, threads := some [{ id := "t1", messages := none }],
    nextPageToken := some "p2" }

/-- Second page of the demo listing. -/
def pageTwo : ListThreadsResponse :=
  { resultSizeEstimate := 3, threads := some [{ id := "t2", messages := none }],
    nextPageToken := some "p3" }

/-- Third and last page of the demo listing (no next-page token). -/
def pageThree : ListThreadsResponse :=
  { resultSizeEstimate := 3, threads := some [{ id := "t3", messages := none }],
    nextPageToken := none }

/-- A demo remote API: three labels of which `bad` 404s, a three-page
unread listing, and single-message threads from `alice@example.com`. -/
def demoClient : GmailClient :=
  { listLabels := .ok (some [{ id := "l1" }, { id := "bad" }, { id := "l3" }]),
    getLabel := fun i =>
      if i = "bad" then .error (.apiError "404")
      else .ok { id := i, name := "Work", threadsTotal := 10, threadsUnread := 3 },
    listThreads := fun _ tok =>
      match tok with
      | none => .ok pageOne
      | some t =>
        if t = "p2" then .ok pageTwo
        else if t = "p3" then .ok pageThree
        else .error (.apiError "bad token"),
    getThread := fun _ =>
      .ok (some [⟨⟨[⟨"From", "alice@example.com"⟩]⟩⟩]) }

/-- A remote API whose label discovery yields an empty label list. -/
def emptyLabelsClient : GmailClient :=
  { listLabels := .ok (some []),
    getLabel := fun _ => .error (.apiError "unused"),
    listThreads := fun _ _ => .error (.apiError "unused"),
    getThread := fun _ => .error (.apiError "unused") }

/-- The exporter state at process start: no gauges, empty sender cache. -/
def emptyState : ExpState := { gauge_collection := [], thread_sender_cache := [] }

/-- A state whose sender cache already attributes thread `t1`. -/
def senderCacheSt : ExpState :=
  { gauge_collection := [], thread_sender_cache := [("t1", "alice@example.com")] }

/-! Dictionary lemmas. -/

theorem dictGet_dictSet_self {β : Type} (k : String) (v : β) (l : List (String × β)) :
    dictGet k (dictSet k v l) = some v := by
  induction l with
  | nil => simp [dictGet, dictSet]
  | cons p rest ih =>
    obtain ⟨k0, v0⟩ := p
    by_cases h : k0 = k <;> simp [dictGet, dictSet, h, ih]

theorem dictGet_dictSet_ne {β : Type} {k k' : String} (v : β) (l : List (String × β))
    (h : k' ≠ k) : dictGet k (dictSet k' v l) = dictGet k l := by
  induction l with
  | nil => simp [dictGet, dictSet, h]
  | cons p rest ih =>
    obtain ⟨k0, v0⟩ := p
    by_cases h0 : k0 = k' <;> by_cases h1 : k0 = k <;>
      simp_all [dictGet, dictSet]

/-! String-key lemmas: the metric keys `<id>_total`, `<id>_unread`,
`<id>_sender` never collide across distinct suffixes (their last
characters differ), and collide on a shared suffix only for equal ids. -/

theorem append_suffix_ne_of_getLast_ne {a b : String} (x y : String) (ha : a.data ≠ [])
    (hb : b.data ≠ []) (h : a.data.getLast? ≠ b.data.getLast?) : x ++ a ≠ y ++ b := by
  intro he
  apply h
  have hd : x.data ++ a.data = y.data ++ b.data := congrArg String.data he
  calc a.data.getLast? = (x.data ++ a.data).getLast? :=
        (List.getLast?_append_of_ne_nil _ ha).symm
    _ = (y.data ++ b.data).getLast? := by rw [hd]
    _ = b.data.getLast? := List.getLast?_append_of_ne_nil _ hb

theorem append_same_suffix_ne {x y : String} (s : String) (h : x ≠ y) :
    x ++ s ≠ y ++ s := by
  intro he
  apply h
  have hd : x.data ++ s.data = y.data ++ s.data := congrArg String.data he
  exact String.ext (List.append_left_injective s.data hd)

theorem key_total_ne_unread (x y : String) : x ++ "_total" ≠ y ++ "_unread" :=
  append_suffix_ne_of_getLast_ne x y (by decide) (by decide) (by decide)

theorem key_total_ne_sender (x y : String) : x ++ "_total" ≠ y ++ "_sender" :=
  append_suffix_ne_of_getLast_ne x y (by decide) (by decide) (by decide)

theorem key_unread_ne_sender (x y : String) : x ++ "_unread" ≠ y ++ "_sender" :=
  append_suffix_ne_of_getLast_ne x y (by decide) (by decide) (by decide)

/-! Gauge registry state lemmas. -/

theorem get_gauge_cache (name desc : String) (labels : List String) (st : ExpState) :
    ((get_gauge_for_label name desc labels st).1).thread_sender_cache
      = st.thread_sender_cache := by
  unfold get_gauge_for_label
  cases dictGet name st.gauge_collection <;> rfl

theorem setGaugeValue_cache (name : String) (v : Int) (st : ExpState) :
    (setGaugeValue name v st).thread_sender_cache = st.thread_sender_cache := by
  unfold setGaugeValue
  cases dictGet name st.gauge_collection <;> rfl

theorem setGaugeChild_cache (name sender : String) (v : Int) (st : ExpState) :
    (setGaugeChild name sender v st).thread_sender_cache = st.thread_sender_cache := by
  unfold setGaugeChild
  cases dictGet name st.gauge_collection <;> rfl

theorem get_gauge_preserves_ne {k name : String} (desc : String) (labels : List String)
    (st : ExpState) (h : k ≠ name) :
    dictGet k ((get_gauge_for_label name desc labels st).1).gauge_collection
      = dictGet k st.gauge_collection := by
  unfold get_gauge_for_label
  cases h1 : dictGet name st.gauge_collection with
  | some g => rfl
  | none => exact dictGet_dictSet_ne _ _ (fun he => h he.symm)

theorem setGaugeValue_preserves_ne {k name : String} (v : Int) (st : ExpState) (h : k ≠ name) :
    dictGet k (setGaugeValue name v st).gauge_collection = dictGet k st.gauge_collection := by
  unfold setGaugeValue
  cases h1 : dictGet name st.gauge_collection with
  | some g => exact dictGet_dictSet_ne _ _ (fun he => h he.symm)
  | none => rfl

theorem setGaugeChild_preserves_ne {k name : String} (sender : String) (v : Int)
    (st : ExpState) (h : k ≠ name) :
    dictGet k (setGaugeChild name sender v st).gauge_collection
      = dictGet k st.gauge_collection := by
  unfold setGaugeChild
  cases h1 : dictGet name st.gauge_collection with
  | some g => exact dictGet_dictSet_ne _ _ (fun he => h he.symm)
  | none => rfl

theorem fresh_get_set (name desc : String) (v : Int) (st : ExpState)
    (h : dictGet name st.gauge_collection = none) :
    dictGet name (setGaugeValue name v ((get_gauge_for_label name desc [] st).1)).gauge_collection
      = some { promName := "gmail_" ++ name, desc := desc, labelNames := [],
               value := v, children := [] } := by
  unfold get_gauge_for_label
  rw [h]
  unfold setGaugeValue
  simp only [dictGet_dictSet_self]

/-! Sender aggregation lemmas. -/

theorem senderLoop_gauges (client : GmailClient) :
    ∀ (ths : List GThread) (st : ExpState) (cnts : List (String × Nat)) (tr : List String),
    ((senderLoop client ths st cnts tr).1).gauge_collection = st.gauge_collection := by
  intro ths
  induction ths with
  | nil => intro st cnts tr; rfl
  | cons th rest ih =>
    intro st cnts tr
    unfold senderLoop
    cases h1 : dictGet th.id st.thread_sender_cache with
    | some s => simpa using ih st _ tr
    | none =>
      cases h2 : client.getThread th.id with
      | error e => simp
      | ok msgs =>
        cases h3 : get_first_message_sender (some { th with messages := msgs }) with
        | error e => simp [h3]
        | ok sender => simpa [h3] using ih _ _ _

theorem publish_cache (label : String) :
    ∀ (cnts : List (String × Nat)) (st : ExpState),
    (publishSenderCounts label cnts st).thread_sender_cache = st.thread_sender_cache := by
  intro cnts
  induction cnts with
  | nil => intro st; rfl
  | cons p rest ih =>
    intro st
    unfold publishSenderCounts at ih ⊢
    simp only [List.foldl_cons]
    rw [ih, setGaugeChild_cache, get_gauge_cache]

theorem publish_preserves_ne (label : String) {k : String} (h : k ≠ label ++ "_sender") :
    ∀ (cnts : List (String × Nat)) (st : ExpState),
    dictGet k (publishSenderCounts label cnts st).gauge_collection
      = dictGet k st.gauge_collection := by
  intro cnts
  induction cnts with
  | nil => intro st; rfl
  | cons p rest ih =>
    intro st
    unfold publishSenderCounts at ih ⊢
    simp only [List.foldl_cons]
    rw [ih, setGaugeChild_preserves_ne _ _ _ h, get_gauge_preserves_ne _ _ _ h]

theorem update_sender_preserves_gauge_ne (client : GmailClient) (label : String) (fuel : Nat)
    (st : ExpState) {k : String} (h : k ≠ label ++ "_sender") :
    dictGet k ((update_sender_gauges_for_label client label fuel st).1).gauge_collection
      = dictGet k st.gauge_collection := by
  unfold update_sender_gauges_for_label
  cases h1 : get_all_threads_for_label client label fuel with
  | error e => rfl
  | ok threads =>
    have hg := senderLoop_gauges client threads st [] []
    cases hsl : senderLoop client threads st [] [] with
    | mk st' p =>
      obtain ⟨trace, exc⟩ := p
      rw [hsl] at hg
      cases exc with
      | error e =>
        simp only [hsl]
        exact congrArg (dictGet k) hg
      | ok cnts =>
        simp only [hsl]
        rw [publish_preserves_ne label h]
        exact congrArg (dictGet k) hg

theorem senderLoop_cache_stable (client : GmailClient) {tid s : String} :
    ∀ (ths : List GThread) (st : ExpState) (cnts : List (String × Nat)) (tr : List String),
    dictGet tid st.thread_sender_cache = some s →
    dictGet tid ((senderLoop client ths st cnts tr).1).thread_sender_cache = some s
    ∧ (tid ∉ tr → tid ∉ (senderLoop client ths st cnts tr).2.1) := by
  intro ths
  induction ths with
  | nil => intro st cnts tr hc; exact ⟨hc, fun h => h⟩
  | cons th rest ih =>
    intro st cnts tr hc
    unfold senderLoop
    cases h1 : dictGet th.id st.thread_sender_cache with
    | some s0 => simpa using ih st _ tr hc
    | none =>
      have hne : th.id ≠ tid := by
        intro he
        rw [he, hc] at h1
        cases h1
      cases h2 : client.getThread th.id with
      | error e =>
        refine ⟨hc, fun htr => ?_⟩
        simp only [List.mem_append, List.mem_singleton]
        rintro (hin | hin)
        · exact htr hin
        · exact hne hin.symm
      | ok msgs =>
        cases h3 : get_first_message_sender (some { th with messages := msgs }) with
        | error e =>
          simp only [h3]
          refine ⟨hc, fun htr => ?_⟩
          simp only [List.mem_append, List.mem_singleton]
          rintro (hin | hin)
          · exact htr hin
          · exact hne hin.symm
        | ok sender =>
          simp only [h3]
          have hc' : dictGet tid
              (dictSet th.id sender st.thread_sender_cache) = some s := by
            rw [dictGet_dictSet_ne _ _ hne]
            exact hc
          have hrec := ih
            ⟨st.gauge_collection, dictSet th.id sender st.thread_sender_cache⟩
            (dictSet sender ((dictGet sender cnts).getD 0 + 1) cnts)
            (tr ++ [th.id]) hc'
          refine ⟨hrec.1, fun htr => hrec.2 ?_⟩
          simp only [List.mem_append, List.mem_singleton]
          rintro (hin | hin)
          · exact htr hin
          · exact hne hin.symm

theorem update_sender_cache_stable (client : GmailClient) (label : String) (fuel : Nat)
    (st : ExpState) {tid s : String}
    (hc : dictGet tid st.thread_sender_cache = some s) :
    dictGet tid
        ((update_sender_gauges_for_label client label fuel st).1).thread_sender_cache = some s
    ∧ tid ∉ (update_sender_gauges_for_label client label fuel st).2.1 := by
  unfold update_sender_gauges_for_label
  cases h1 : get_all_threads_for_label client label fuel with
  | error e => exact ⟨hc, by simp⟩
  | ok threads =>
    have hsl := senderLoop_cache_stable client threads st [] [] hc
    cases h2 : senderLoop client threads st [] [] with
    | mk st' p =>
      obtain ⟨trace, exc⟩ := p
      rw [h2] at hsl
      cases exc with
      | error e =>
        simp only [h2]
        exact ⟨hsl.1, hsl.2 (by simp)⟩
      | ok cnts =>
        simp only [h2]
        constructor
        · rw [publish_cache]
          exact hsl.1
        · exact hsl.2 (by simp)

/-! Refresh-cycle lemmas. -/

theorem processLabel_error (client : GmailClient) (sc : List String) (fuel : Nat)
    (acc : ExpState × List String) (l : LabelDesc) {e : PyErr}
    (h : client.getLabel l.id = .error e) :
    processLabel client sc fuel acc l = acc := by
  simp only [processLabel, h]

theorem processLabel_sets (client : GmailClient) (sc : List String) (fuel : Nat)
    (acc : ExpState × List String) (l : LabelDesc) (info : LabelInfo)
    (hfetch : client.getLabel l.id = .ok info)
    (hT : dictGet (info.id ++ "_total") acc.1.gauge_collection = none)
    (hU : dictGet (info.id ++ "_unread") acc.1.gauge_collection = none) :
    dictGet (info.id ++ "_total") ((processLabel client sc fuel acc l).1).gauge_collection
      = some { promName := "gmail_" ++ (info.id ++ "_total"),
               desc := info.name ++ " Total", labelNames := [],
               value := (info.threadsTotal : Int), children := [] }
    ∧ dictGet (info.id ++ "_unread") ((processLabel client sc fuel acc l).1).gauge_collection
      = some { promName := "gmail_" ++ (info.id ++ "_unread"),
               desc := info.name ++ " Unread", labelNames := [],
               value := (info.threadsUnread : Int), children := [] }
    := by
  have hUT : info.id ++ "_unread" ≠ info.id ++ "_total" :=
    (key_total_ne_unread info.id info.id).symm
  have hTU : info.id ++ "_total" ≠ info.id ++ "_unread" :=
    key_total_ne_unread info.id info.id
  have hTS : info.id ++ "_total" ≠ info.id ++ "_sender" :=
    key_total_ne_sender info.id info.id
  have hUS : info.id ++ "_unread" ≠ info.id ++ "_sender" :=
    key_unread_ne_sender info.id info.id
  simp only [processLabel, hfetch]
  by_cases hmem : l.id ∈ sc
  · simp only [hmem, if_true]
    constructor
    · rw [update_sender_preserves_gauge_ne client info.id fuel _ hTS,
        setGaugeValue_preserves_ne _ _ hTU, get_gauge_preserves_ne _ _ _ hTU]
      exact fresh_get_set _ _ _ _ hT
    · rw [update_sender_preserves_gauge_ne client info.id fuel _ hUS]
      apply fresh_get_set
      rw [setGaugeValue_preserves_ne _ _ hUT, get_gauge_preserves_ne _ _ _ hUT]
      exact hU
  · simp only [hmem, if_false]
    constructor
    · rw [setGaugeValue_preserves_ne _ _ hTU, get_gauge_preserves_ne _ _ _ hTU]
      exact fresh_get_set _ _ _ _ hT
    · apply fresh_get_set
      rw [setGaugeValue_preserves_ne _ _ hUT, get_gauge_preserves_ne _ _ _ hUT]
      exact hU

theorem processLabel_preserves_key (client : GmailClient) (sc : List String) (fuel : Nat)
    (acc : ExpState × List String) (l : LabelDesc) {k : String}
    (hk : ∀ info', client.getLabel l.id = .ok info' →
      k ≠ info'.id ++ "_total" ∧ k ≠ info'.id ++ "_unread" ∧ k ≠ info'.id ++ "_sender") :
    dictGet k ((processLabel client sc fuel acc l).1).gauge_collection
      = dictGet k acc.1.gauge_collection := by
  cases hfetch : client.getLabel l.id with
  | error e => rw [processLabel_error client sc fuel acc l hfetch]
  | ok info =>
    obtain ⟨h1, h2, h3⟩ := hk info hfetch
    simp only [processLabel, hfetch]
    by_cases hmem : l.id ∈ sc
    · simp only [hmem, if_true]
      rw [update_sender_preserves_gauge_ne client info.id fuel _ h3,
        setGaugeValue_preserves_ne _ _ h2, get_gauge_preserves_ne _ _ _ h2,
        setGaugeValue_preserves_ne _ _ h1, get_gauge_preserves_ne _ _ _ h1]
    · simp only [hmem, if_false]
      rw [setGaugeValue_preserves_ne _ _ h2, get_gauge_preserves_ne _ _ _ h2,
        setGaugeValue_preserves_ne _ _ h1, get_gauge_preserves_ne _ _ _ h1]

theorem updateLabels_preserves_key (client : GmailClient) (sc : List String) (fuel : Nat) :
    ∀ (labels : List LabelDesc) (acc : ExpState × List String) {k : String},
    (∀ l' ∈ labels, ∀ info', client.getLabel l'.id = .ok info' →
      k ≠ info'.id ++ "_total" ∧ k ≠ info'.id ++ "_unread" ∧ k ≠ info'.id ++ "_sender") →
    dictGet k ((updateLabels client sc fuel labels acc).1).gauge_collection
      = dictGet k acc.1.gauge_collection := by
  intro labels
  induction labels with
  | nil => intro acc k hk; rfl
  | cons l rest ih =>
    intro acc k hk
    unfold updateLabels at ih ⊢
    simp only [List.foldl_cons]
    rw [ih (processLabel client sc fuel acc l) (fun l' hl' => hk l' (by simp [hl']))]
    exact processLabel_preserves_key client sc fuel acc l (hk l (by simp))

/-! Pagination lemmas. -/

theorem threadsPageLoop_chain (client : GmailClient) (labelId : String) :
    ∀ (rest : List ListThreadsResponse) (r : ListThreadsResponse) (acc : List GThread)
      (fuel : Nat),
    RespChain (fun t => client.listThreads labelId (some t)) r rest →
    (∀ x ∈ rest, ∃ ts, x.threads = some ts) →
    rest.length ≤ fuel →
    threadsPageLoop client labelId fuel r acc
      = .ok (acc ++ (rest.map (fun x => x.threads.getD [])).flatten) := by
  intro rest
  induction rest with
  | nil =>
    intro r acc fuel hchain hts hfuel
    unfold threadsPageLoop
    rw [show r.nextPageToken = none from hchain]
    simp
  | cons r' rest' ih =>
    intro r acc fuel hchain hts hfuel
    obtain ⟨t, htok, hfetch, hchain'⟩ := hchain
    unfold threadsPageLoop
    rw [htok]
    cases fuel with
    | zero => simp at hfuel
    | succ fuel' =>
      obtain ⟨ts, hts'⟩ := hts r' (by simp)
      simp only [hfetch, hts']
      rw [ih r' (acc ++ ts) fuel' hchain' (fun x hx => hts x (by simp [hx]))
        (by simp only [List.length_cons] at hfuel; omega)]
      simp [hts', List.append_assoc]

/-! Claim theorems. -/

/-- C2: a label whose metadata fetch fails is logged and skipped, and the
refresh cycle proceeds exactly as if that label were absent from the list:
the surrounding labels are processed unchanged, in list order, so one
label's failure never aborts the cycle nor prevents the others from
updating their gauges. -/
theorem C2_failed_label_skipped (client : GmailClient) (sc : List String) (fuel : Nat)
    (pre post : List LabelDesc) (bad : LabelDesc) (acc : ExpState × List String) (e : PyErr)
    (h : client.getLabel bad.id = .error e) :
    updateLabels client sc fuel (pre ++ bad :: post) acc
      = updateLabels client sc fuel (pre ++ post) acc := by
  unfold updateLabels
  rw [List.foldl_append, List.foldl_append, List.foldl_cons,
    processLabel_error client sc fuel _ bad h]

/-- Witness for C2: in a cycle over labels `l1, bad, l3` against the demo
API, where fetching `bad` 404s, the cycle result equals that of the cycle
over `l1, l3` alone. -/
theorem C2_failed_label_skipped_witness :
    updateLabels demoClient [] 2 ([{ id := "l1" }] ++ { id := "bad" } :: [{ id := "l3" }])
        (emptyState, [])
      = updateLabels demoClient [] 2 ([{ id := "l1" }] ++ [{ id := "l3" }])
        (emptyState, []) :=
  C2_failed_label_skipped demoClient [] 2 [{ id := "l1" }] [{ id := "l3" }]
    { id := "bad" } (emptyState, []) (.apiError "404") rfl

/-- C5: the sender attribution cache is write-once per thread id: if the
cache already maps `tid` to `s`, then after any sender aggregation run the
cache still maps `tid` to `s` (never overwritten or removed), and the run
issues no message-fetch call for `tid` — so a second refresh cycle
resolves the same sender for a cached thread with zero fetches for it. -/
theorem C5_cache_write_once (client : GmailClient) (label : String) (fuel : Nat)
    (st : ExpState) (tid s : String)
    (hc : dictGet tid st.thread_sender_cache = some s) :
    dictGet tid
        ((update_sender_gauges_for_label client label fuel st).1).thread_sender_cache
      = some s
    ∧ tid ∉ (update_sender_gauges_for_label client label fuel st).2.1 :=
  update_sender_cache_stable client label fuel st hc

/-- Witness for C5: with `t1` already attributed to `alice@example.com`,
a sender aggregation over the demo API's three pages keeps the entry and
never fetches `t1`. -/
theorem C5_cache_write_once_witness :
    dictGet "t1" senderCacheSt.thread_sender_cache = some "alice@example.com"
    ∧ (dictGet "t1"
          ((update_sender_gauges_for_label demoClient "l1" 2
            senderCacheSt).1).thread_sender_cache
        = some "alice@example.com"
      ∧ "t1" ∉ (update_sender_gauges_for_label demoClient "l1" 2 senderCacheSt).2.1) :=
  ⟨rfl, C5_cache_write_once demoClient "l1" 2 senderCacheSt "t1" "alice@example.com" rfl⟩

/-- C8 counterexample: when the readiness string is `""`, the handler
returns status 200 with body `"OK"` — not an empty body as claimed. -/
theorem C8_ready_body_counterexample :
    readyz "" = { status := 200, body := "OK" } ∧ (readyz "").body ≠ "" :=
  ⟨rfl, by decide⟩

/-- C8 (amended): when the readiness string is `""` the health endpoint
returns 200 with body `"OK"` (not empty); when it is any non-empty value
it returns 503 with exactly that blocking reason as the body. -/
theorem C8_readyz_amended (r : String) :
    (r = "" → readyz r = { status := 200, body := "OK" })
    ∧ (r ≠ "" → readyz r = { status := 503, body := r }) := by
  constructor <;> intro h <;> simp [readyz, h]

/-- Witness for C8: evaluated at `""` and at the reason `"waiting"`. -/
theorem C8_readyz_witness :
    readyz "" = { status := 200, body := "OK" }
    ∧ readyz "waiting" = { status := 503, body := "waiting" } :=
  ⟨(C8_readyz_amended "").1 rfl, (C8_readyz_amended "waiting").2 (by decide)⟩

/-- C9: gauge registration is idempotent and keyed only by name: after a
`get_or_create` call for `name` the returned handle is the stored one, and
a further call for the same name — with any description and any label
dimensions — returns the identical stored handle and leaves the registry
unchanged. -/
theorem C9_gauge_registry_idempotent (name d d' : String) (dims dims' : List String)
    (st : ExpState) :
    dictGet name ((get_gauge_for_label name d dims st).1).gauge_collection
      = some (get_gauge_for_label name d dims st).2
    ∧ get_gauge_for_label name d' dims' ((get_gauge_for_label name d dims st).1)
      = ((get_gauge_for_label name d dims st).1, (get_gauge_for_label name d dims st).2) := by
  cases h : dictGet name st.gauge_collection with
  | some g => simp [get_gauge_for_label, h]
  | none => simp [get_gauge_for_label, h, dictGet_dictSet_self]

/-- C10: the readiness string starts as `""` (READY), so before any
blocking condition is written the health endpoint answers success
(status 200), not a 503 blocked status. -/
theorem C10_initial_readiness_ready :
    READINESS_initial = "" ∧ readyz READINESS_initial = { status := 200, body := "OK" }
    ∧ (readyz READINESS_initial).status ≠ 503 :=
  ⟨rfl, rfl, by decide⟩

/-- C3 counterexample: a thread whose message list is present but empty
("a thread with no messages") does not resolve to the sentinel
`unknown-thread-no-messages`: indexing its first message raises
`IndexError` instead. -/
theorem C3_empty_messages_counterexample :
    get_first_message_sender (some { id := "t0", messages := some [] })
      = .error .indexError
    ∧ get_first_message_sender (some { id := "t0", messages := some [] })
      ≠ .ok "unknown-thread-no-messages" :=
  ⟨rfl, fun h => Except.noConfusion h⟩

/-- C3 (amended): sender resolution yields the sentinel
`unknown-thread-no-messages` exactly when the thread is `None` or its
`messages` field is `None`; a present-but-empty message list instead
raises `IndexError`; otherwise the first message's headers are scanned and
the first header named `From` gives the sender verbatim, with sentinel
`unknown-no-from` when no such header exists. -/
theorem C3_sender_resolution_amended (th : GThread) :
    get_first_message_sender none = .ok "unknown-thread-no-messages"
    ∧ (th.messages = none →
        get_first_message_sender (some th) = .ok "unknown-thread-no-messages")
    ∧ (th.messages = some [] →
        get_first_message_sender (some th) = .error .indexError)
    ∧ (∀ m rest v, th.messages = some (m :: rest) →
        findFromHeader m.payload.headers = some v →
        get_first_message_sender (some th) = .ok v)
    ∧ (∀ m rest, th.messages = some (m :: rest) →
        findFromHeader m.payload.headers = none →
        get_first_message_sender (some th) = .ok "unknown-no-from")
    ∧ (∀ (pre post : List Header) (h : Header),
        (∀ h0 ∈ pre, h0.name ≠ "From") → h.name = "From" →
        findFromHeader (pre ++ h :: post) = some h.value) := by
  obtain ⟨tid, msgs⟩ := th
  refine ⟨rfl, ?_, ?_, ?_, ?_, ?_⟩
  · intro h
    subst h
    rfl
  · intro h
    subst h
    rfl
  · intro m rest v h hf
    subst h
    simp [get_first_message_sender, hf]
  · intro m rest h hf
    subst h
    simp [get_first_message_sender, hf]
  · intro pre post h hpre hname
    induction pre with
    | nil => simp [findFromHeader, hname]
    | cons h0 rest0 ih =>
      have hne : h0.name ≠ "From" := hpre h0 (by simp)
      simp only [List.cons_append, findFromHeader, hne, if_false]
      exact ih (fun x hx => hpre x (by simp [hx]))

/-- Witness for C3 (amended): evaluated on a `None`-messages thread, an
empty-list thread, and a thread whose first message has a second-position
`From` header. -/
theorem C3_sender_resolution_witness :
    get_first_message_sender (some { id := "a", messages := none })
      = .ok "unknown-thread-no-messages"
    ∧ get_first_message_sender (some { id := "b", messages := some [] })
      = .error .indexError
    ∧ get_first_message_sender
        (some (⟨"c", some [⟨⟨[⟨"To", "x"⟩, ⟨"From", "a@b"⟩]⟩⟩]⟩ : GThread))
      = .ok "a@b" :=
  ⟨(C3_sender_resolution_amended { id := "a", messages := none }).2.1 rfl,
   (C3_sender_resolution_amended { id := "b", messages := some [] }).2.2.1 rfl,
   (C3_sender_resolution_amended
      (⟨"c", some [⟨⟨[⟨"To", "x"⟩, ⟨"From", "a@b"⟩]⟩⟩]⟩ : GThread)).2.2.2.1
     ⟨⟨[⟨"To", "x"⟩, ⟨"From", "a@b"⟩]⟩⟩ [] "a@b" rfl (by decide)⟩

/-- C4: over a token-chained sequence of pages (the last page carrying no
token) whose thread lists are all present, the aggregator returns exactly
the concatenation of all pages' thread lists in page order — hence each
thread occurs exactly as often as in the pages, i.e. exactly once when the
pages list it once — and fetching follows precisely the token chain. -/
theorem C4_pagination_collects_all (client : GmailClient) (labelId : String) (fuel : Nat)
    (r0 : ListThreadsResponse) (rest : List ListThreadsResponse)
    (hfirst : client.listThreads labelId none = .ok r0)
    (hchain : RespChain (fun t => client.listThreads labelId (some t)) r0 rest)
    (hts : ∀ x ∈ r0 :: rest, ∃ ts, x.threads = some ts)
    (hfuel : rest.length ≤ fuel) :
    get_all_threads_for_label client labelId fuel
      = .ok (((r0 :: rest).map (fun x => x.threads.getD [])).flatten)
    ∧ ∀ th : GThread,
      (((r0 :: rest).map (fun x => x.threads.getD [])).flatten).count th
        = ((r0 :: rest).map (fun x => (x.threads.getD []).count th)).sum := by
  constructor
  · unfold get_all_threads_for_label
    rw [hfirst]
    obtain ⟨ts0, h0⟩ := hts r0 (by simp)
    simp only [h0]
    rw [threadsPageLoop_chain client labelId rest r0 ts0 fuel hchain
      (fun x hx => hts x (by simp [hx])) hfuel]
    simp [h0]
  · intro th
    rw [List.count_flatten, List.map_map]
    rfl

/-- Witness for C4: the demo API's three chained pages collect to exactly
`[t1, t2, t3]`. -/
theorem C4_pagination_witness :
    get_all_threads_for_label demoClient "l1" 2
      = .ok [{ id := "t1", messages := none }, { id := "t2", messages := none },
             { id := "t3", messages := none }] := by
  have h := C4_pagination_collects_all demoClient "l1" 2 pageOne [pageTwo, pageThree]
    rfl ⟨"p2", rfl, rfl, "p3", rfl, rfl, rfl⟩
    (by
      intro x hx
      simp only [List.mem_cons, List.not_mem_nil, or_false] at hx
      rcases hx with h1 | h1 | h1 <;> subst h1 <;> exact ⟨_, rfl⟩)
    (by decide)
  exact h.1

/-- C6: label resolution is memoized for the process lifetime: once a call
succeeds, a repeated call returns the identical cached list issuing zero
further discovery calls (so at most one discovery call in total), and an
explicit non-empty label list is returned as-is, in order, with no
discovery call at all. -/
theorem C6_labels_memoized (labels_arg : List String) (client : GmailClient) :
    (∀ ls, (get_labels labels_arg client none).2.2 = .ok ls →
      get_labels labels_arg client (get_labels labels_arg client none).1
        = ((get_labels labels_arg client none).1, 0, .ok ls)
      ∧ (get_labels labels_arg client none).2.1 ≤ 1)
    ∧ (labels_arg ≠ [] →
      get_labels labels_arg client none
        = (some (labels_arg.map fun x => { id := x }), 0,
           .ok (labels_arg.map fun x => { id := x }))
      ∧ (labels_arg.map fun x => ({ id := x } : LabelDesc)).map LabelDesc.id
          = labels_arg) := by
  constructor
  · intro ls h
    cases hu : get_labels_uncached labels_arg client with
    | error f =>
      exfalso
      have hbad : (get_labels labels_arg client none).2.2 = .error f := by
        simp [get_labels, hu]
      rw [hbad] at h
      exact Except.noConfusion h
    | ok ls0 =>
      have h1 : get_labels labels_arg client none
          = (some ls0, if labels_arg.length = 0 then 1 else 0, .ok ls0) := by
        simp [get_labels, hu]
      have hls : ls0 = ls := by
        rw [h1] at h
        exact Except.ok.inj h
      subst hls
      rw [h1]
      exact ⟨rfl, by by_cases hl : labels_arg.length = 0 <;> simp [hl]⟩
  · intro hne
    have hlen : ¬ labels_arg.length = 0 := by simpa using hne
    have hemp : (labels_arg.map fun x => ({ id := x } : LabelDesc)).isEmpty = false := by
      cases labels_arg with
      | nil => exact absurd rfl hne
      | cons a l => rfl
    have hu : get_labels_uncached labels_arg client
        = .ok (labels_arg.map fun x => { id := x }) := by
      simp [get_labels_uncached, hlen, hemp]
    constructor
    · simp [get_labels, hu, hlen]
    · rw [List.map_map]
      exact List.map_id labels_arg

/-- Witness for C6: against the demo API, discovery-based resolution
succeeds once and the second call is served from the cache; an explicit
list `[a, b]` is returned as-is with zero discovery calls. -/
theorem C6_labels_memoized_witness :
    (get_labels [] demoClient none
        = (some [{ id := "l1" }, { id := "bad" }, { id := "l3" }], 1,
           .ok [{ id := "l1" }, { id := "bad" }, { id := "l3" }])
      ∧ get_labels [] demoClient (get_labels [] demoClient none).1
        = ((get_labels [] demoClient none).1, 0,
           .ok [{ id := "l1" }, { id := "bad" }, { id := "l3" }])
      ∧ (get_labels [] demoClient none).2.1 ≤ 1)
    ∧ (get_labels ["a", "b"] demoClient none
        = (some [{ id := "a" }, { id := "b" }], 0, .ok [{ id := "a" }, { id := "b" }])
      ∧ [({ id := "a" } : LabelDesc), { id := "b" }].map LabelDesc.id = ["a", "b"]) := by
  constructor
  · refine ⟨rfl, ?_⟩
    exact (C6_labels_memoized [] demoClient).1
      [{ id := "l1" }, { id := "bad" }, { id := "l3" }] rfl
  · have h := (C6_labels_memoized ["a", "b"] demoClient).2 (by decide)
    exact ⟨h.1, h.2⟩

/-- If the body of `get_labels` returns successfully, the returned label
list passed the `if not labels: sys.exit()` check, so it is non-empty. -/
theorem get_labels_uncached_ok_ne_nil (labels_arg : List String) (client : GmailClient)
    (ls : List LabelDesc) (h : get_labels_uncached labels_arg client = .ok ls) :
    ls ≠ [] := by
  simp only [get_labels_uncached] at h
  cases hv : (if labels_arg.length = 0 then
      match client.listLabels with
      | .error e => Except.error (Fatal.exc e)
      | .ok results => Except.ok (results.getD [])
    else Except.ok (labels_arg.map fun label => { id := label })) with
  | error f => rw [hv] at h; exact Except.noConfusion h
  | ok ls0 =>
    rw [hv] at h
    dsimp only at h
    by_cases he : ls0.isEmpty
    · rw [if_pos he] at h
      exact Except.noConfusion h
    · rw [if_neg he] at h
      obtain rfl := Except.ok.inj h
      simpa [List.isEmpty_iff] using he

/-- C7: with no explicit labels configured, a discovery result carrying an
empty label set makes the first refresh cycle exit fatally (`sys.exit`)
before touching any gauge; and every successful label resolution returns
a non-empty list, so a running process always monitors at least one
label. -/
theorem C7_empty_discovery_fatal (client : GmailClient) (sc : List String) (fuel : Nat)
    (st : ExpState) (results : Option (List LabelDesc)) :
    (client.listLabels = .ok results → results.getD [] = [] →
      update_gauages_from_gmail client [] sc fuel none st = (none, st, [], some .sysExit))
    ∧ (∀ (labels_arg : List String) (ls : List LabelDesc),
        get_labels_uncached labels_arg client = .ok ls → ls ≠ []) := by
  constructor
  · intro h1 h2
    have hu : get_labels_uncached [] client = .error .sysExit := by
      simp [get_labels_uncached, h1, h2]
    simp [update_gauages_from_gmail, get_labels, hu]
  · exact fun labels_arg ls h => get_labels_uncached_ok_ne_nil labels_arg client ls h

/-- Witness for C7: the empty-discovery API makes the cycle exit fatally
with the state untouched, and the demo API's successful resolution is
non-empty. -/
theorem C7_empty_discovery_fatal_witness :
    update_gauages_from_gmail emptyLabelsClient [] [] 2 none emptyState
      = (none, emptyState, [], some .sysExit)
    ∧ [({ id := "l1" } : LabelDesc), { id := "bad" }, { id := "l3" }] ≠ [] :=
  ⟨(C7_empty_discovery_fatal emptyLabelsClient [] 2 emptyState (some [])).1 rfl rfl,
   (C7_empty_discovery_fatal demoClient [] 2 emptyState none).2 []
     [{ id := "l1" }, { id := "bad" }, { id := "l3" }] rfl⟩

/-- C1 counterexample: after a refresh cycle over the demo API, the gauge
registered for label `l1` (display name `Work`, total 10) carries the
description `"Work Total"` — the display name suffixed, not the display
name `"Work"` itself as the claim states. -/
theorem C1_description_counterexample :
    (dictGet "l1_total"
        ((update_gauages_from_gmail demoClient [] [] 2 none
          emptyState).2.1).gauge_collection).map Gauge.desc = some "Work Total"
    ∧ "Work Total" ≠ "Work" :=
  ⟨rfl, by decide⟩

/-- C1 (amended): for a label whose metadata fetch succeeds in a refresh
cycle — provided its two gauge keys are still unregistered when its turn
comes and no later label in the cycle resolves to the same label id —
after the cycle the gauge exported as `gmail_<labelId>_total` holds
exactly the reported total thread count and `gmail_<labelId>_unread`
exactly the reported unread thread count, assigned absolutely by `set`,
each registered with the label's display name suffixed by `" Total"` /
`" Unread"` as its description. -/
theorem C1_gauges_set_amended (client : GmailClient) (sc : List String) (fuel : Nat)
    (st : ExpState) (tr : List String) (pre post : List LabelDesc) (l : LabelDesc)
    (info : LabelInfo)
    (hfetch : client.getLabel l.id = .ok info)
    (hT : dictGet (info.id ++ "_total")
        ((updateLabels client sc fuel pre (st, tr)).1).gauge_collection = none)
    (hU : dictGet (info.id ++ "_unread")
        ((updateLabels client sc fuel pre (st, tr)).1).gauge_collection = none)
    (hpost : ∀ l' ∈ post, ∀ info', client.getLabel l'.id = .ok info' →
      info'.id ≠ info.id) :
    dictGet (info.id ++ "_total")
        ((updateLabels client sc fuel (pre ++ l :: post) (st, tr)).1).gauge_collection
      = some { promName := "gmail_" ++ (info.id ++ "_total"),
               desc := info.name ++ " Total", labelNames := [],
               value := (info.threadsTotal : Int), children := [] }
    ∧ dictGet (info.id ++ "_unread")
        ((updateLabels client sc fuel (pre ++ l :: post) (st, tr)).1).gauge_collection
      = some { promName := "gmail_" ++ (info.id ++ "_unread"),
               desc := info.name ++ " Unread", labelNames := [],
               value := (info.threadsUnread : Int), children := [] } := by
  have hsplit : updateLabels client sc fuel (pre ++ l :: post) (st, tr)
      = updateLabels client sc fuel post
          (processLabel client sc fuel (updateLabels client sc fuel pre (st, tr)) l) := by
    unfold updateLabels
    rw [List.foldl_append, List.foldl_cons]
  have hset := processLabel_sets client sc fuel
    (updateLabels client sc fuel pre (st, tr)) l info hfetch hT hU
  have hkeyT : ∀ l' ∈ post, ∀ info', client.getLabel l'.id = .ok info' →
      info.id ++ "_total" ≠ info'.id ++ "_total"
      ∧ info.id ++ "_total" ≠ info'.id ++ "_unread"
      ∧ info.id ++ "_total" ≠ info'.id ++ "_sender" := by
    intro l' hl' info' hok
    exact ⟨append_same_suffix_ne _ (Ne.symm (hpost l' hl' info' hok)),
      key_total_ne_unread info.id info'.id, key_total_ne_sender info.id info'.id⟩
  have hkeyU : ∀ l' ∈ post, ∀ info', client.getLabel l'.id = .ok info' →
      info.id ++ "_unread" ≠ info'.id ++ "_total"
      ∧ info.id ++ "_unread" ≠ info'.id ++ "_unread"
      ∧ info.id ++ "_unread" ≠ info'.id ++ "_sender" := by
    intro l' hl' info' hok
    exact ⟨(key_total_ne_unread info'.id info.id).symm,
      append_same_suffix_ne _ (Ne.symm (hpost l' hl' info' hok)),
      key_unread_ne_sender info.id info'.id⟩
  constructor
  · rw [hsplit, updateLabels_preserves_key client sc fuel post _ hkeyT]
    exact hset.1
  · rw [hsplit, updateLabels_preserves_key client sc fuel post _ hkeyU]
    exact hset.2

/-- Witness for C1 (amended): against the demo API, processing `l1`
(total 10, unread 3) followed by `l3` leaves `gmail_l1_total` at 10 and
`gmail_l1_unread` at 3, with descriptions `"Work Total"` / `"Work Unread"`. -/
theorem C1_gauges_set_witness :
    dictGet ("l1" ++ "_total")
        ((updateLabels demoClient [] 2 ([] ++ { id := "l1" } :: [{ id := "l3" }])
          (emptyState, [])).1).gauge_collection
      = some { promName := "gmail_" ++ ("l1" ++ "_total"), desc := "Work" ++ " Total",
               labelNames := [], value := (10 : Int), children := [] }
    ∧ dictGet ("l1" ++ "_unread")
        ((updateLabels demoClient [] 2 ([] ++ { id := "l1" } :: [{ id := "l3" }])
          (emptyState, [])).1).gauge_collection
      = some { promName := "gmail_" ++ ("l1" ++ "_unread"), desc := "Work" ++ " Unread",
               labelNames := [], value := (3 : Int), children := [] } :=
  C1_gauges_set_amended demoClient [] 2 emptyState [] [] [{ id := "l3" }]
    { id := "l1" } { id := "l1", name := "Work", threadsTotal := 10, threadsUnread := 3 }
    rfl rfl rfl
    (by
      intro l' hl' info' hok
      simp only [List.mem_singleton] at hl'
      subst hl'
      simp only [demoClient] at hok
      rw [if_neg (by decide)] at hok
      obtain rfl := Except.ok.inj hok
      decide)
